import Mathlib

/-!
Shallow embedding of the client-side feedback aggregation and
device-registration logic of the superfan-club mobile client.

The feedback-aggregation functions (`getAverageRating`, `getRatingColor`,
`getAvailableRatings`, `getAllComments`) follow the TypeScript source in
`src/unnamed/part_001` (FeedbackScreen) and, identically, in
`src/src/screens/FeedbackDetailScreen.tsx`.  Dynamic JSON objects such as
`feedback.ratings` are embedded as ordered association lists of `JVal`
values (mirroring `Object.values` / `Object.entries` iteration order);
JavaScript numbers are embedded as rationals, and `Number.prototype.toFixed(1)`
is embedded as rounding to one decimal place (`roundTo1`).

The device-service functions (`getDeviceCredentials`,
`updateSubscriptionSeverity`, `getDeviceFilteredEscalations`) and the
screen-level `registerDevice` follow `src/unnamed/part_004` (DeviceService)
and `src/src/screens/FeedbackDetailScreen.tsx`; `AsyncStorage` is embedded
as an explicit record of the three keys the code uses, and each network
call is replaced by an oracle argument (`Except` of the transport outcome)
together with a count of how many network requests the run issued.
-/

namespace SuperfanClub

/-- A JSON-like dynamic value, as found in the `ratings` / `comments`
objects of a `DeviceFilteredEscalation` payload. -/
inductive JVal where
  | num (q : ℚ)
  | str (s : String)
  | nullv
  deriving DecidableEq

/-- The part of a `DeviceFilteredEscalation` record that the aggregation
helpers read: optional server summary fields `primaryRating` /
`primaryComment`, and the dynamic `ratings` / `comments` objects
(`none` embeds an absent / non-object field). -/
structure FeedbackRecord where
  primaryRating : Option ℚ
  primaryComment : Option String
  ratings : Option (List (String × JVal))
  comments : Option (List (String × JVal))
  deriving DecidableEq

/-- Embeds `Number.prototype.toFixed(1)` on a non-negative rating: the
value rounded to one decimal place. -/
def roundTo1 (q : ℚ) : ℚ :=
  ((q * 10 + 1 / 2).floor : ℚ) / 10

/-- Embeds `Object.values(feedback.ratings).filter(v => typeof v === "number" and v > 0)`:
the numeric values greater than 0, in iteration order. -/
def ratingValuesOf (entries : List (String × JVal)) : List ℚ :=
  entries.filterMap fun kv =>
    match kv.2 with
    | .num q => if 0 < q then some q else none
    | _ => none

/-- The positive numeric rating values of a record (empty when `ratings`
is absent). -/
def positiveRatingValues (r : FeedbackRecord) : List ℚ :=
  match r.ratings with
  | some entries => ratingValuesOf entries
  | none => []

/-- The `ratings`-object fallback of `getAverageRating`: the mean of the
positive numeric values, rounded to one decimal, or `0.0` when there are
none. -/
def getAverageRatingFromRatings (r : FeedbackRecord) : ℚ :=
  match r.ratings with
  | some entries =>
    let ratingValues := ratingValuesOf entries
    if 0 < ratingValues.length then
      roundTo1 (ratingValues.sum / ratingValues.length)
    else 0
  | none => 0

/-- Embeds `getAverageRating` (part_001 lines 140-157; identical in
FeedbackDetailScreen lines 85-100): `primaryRating` wins when present and
positive, otherwise the mean of the positive values of `ratings`,
otherwise `0.0`. -/
def getAverageRating (r : FeedbackRecord) : ℚ :=
  match r.primaryRating with
  | some p => if 0 < p then roundTo1 p else getAverageRatingFromRatings r
  | none => getAverageRatingFromRatings r

/-- Embeds `getRatingColor` (part_001 lines 159-163): green at `rating >= 4`,
amber at `rating >= 3`, red below. -/
def getRatingColor (rating : ℚ) : String :=
  if rating ≥ 4 then "#10B981"
  else if rating ≥ 3 then "#F59E0B"
  else "#EF4444"

/-- Embeds `key.charAt(0).toUpperCase() + key.slice(1)`. -/
def capitalizeFirst (s : String) : String :=
  match s.data with
  | [] => ""
  | c :: rest => String.mk (c.toUpper :: rest)

/-- One entry of the list `getAvailableRatings` builds:
`{ key, label: key.charAt(0).toUpperCase() + key.slice(1), value }`. -/
structure RatingEntry where
  key : String
  label : String
  value : ℚ
  deriving DecidableEq

/-- Embeds `Object.entries(feedback.ratings).filter(v => typeof v === "number" and v > 0)`:
the entries whose value is a number greater than 0, in iteration order. -/
def positiveRatingEntries (entries : List (String × JVal)) : List (String × ℚ) :=
  entries.filterMap fun kv =>
    match kv.2 with
    | .num q => if 0 < q then some (kv.1, q) else none
    | _ => none

/-- Embeds `getAvailableRatings` (part_001 lines 165-179): positive-valued
entries of `ratings`, truncated by `.slice(0, 5)`, each mapped to a
`RatingEntry` with capitalized label. -/
def getAvailableRatings (r : FeedbackRecord) : List RatingEntry :=
  match r.ratings with
  | some entries =>
    ((positiveRatingEntries entries).take 5).map fun kv =>
      { key := kv.1, label := capitalizeFirst kv.1, value := kv.2 }
  | none => []

/-- Embeds `String.prototype.trim()`: the string with leading and
trailing whitespace removed. -/
def jsTrim (s : String) : String :=
  String.mk (((s.data.dropWhile Char.isWhitespace).reverse.dropWhile
    Char.isWhitespace).reverse)

/-- Embeds `Object.values(feedback.comments).filter(c => typeof c === "string" and c.trim().length > 0)`:
the string values that are non-empty after trimming, in iteration order
(kept untrimmed, as the source joins the originals). -/
def commentValuesOf (entries : List (String × JVal)) : List String :=
  entries.filterMap fun kv =>
    match kv.2 with
    | .str s => if jsTrim s ≠ "" then some s else none
    | _ => none

/-- The string values of the `comments` object that are non-empty after
trimming (empty when `comments` is absent). -/
def trimmedComments (r : FeedbackRecord) : List String :=
  match r.comments with
  | some entries => commentValuesOf entries
  | none => []

/-- The `comments`-object fallback of `getAllComments`: the non-blank
string values joined with `" | "`, or `null` when there are none. -/
def getAllCommentsFromComments (r : FeedbackRecord) : Option String :=
  match r.comments with
  | some entries =>
    let commentValues := commentValuesOf entries
    if 0 < commentValues.length then
      some (String.intercalate " | " commentValues)
    else none
  | none => none

/-- Embeds `getAllComments` (part_001 lines 181-198): `primaryComment` wins when
non-blank, otherwise the joined non-blank values of `comments`, otherwise
`null`. -/
def getAllComments (r : FeedbackRecord) : Option String :=
  match r.primaryComment with
  | some c => if jsTrim c ≠ "" then some c else getAllCommentsFromComments r
  | none => getAllCommentsFromComments r

/-- The `(backgroundColor, icon, textColor)` triple the escalation banner
is rendered with. -/
structure SeverityPresentation where
  backgroundColor : String
  icon : String
  textColor : String
  deriving DecidableEq

/-- The severity-conditional styling of the escalation banner
(part_001 lines 279-298; identical in FeedbackDetailScreen lines 260-279):
three parallel conditional expressions testing severity against the
literals high and medium, everything else falling through to the
info styling. -/
def classifySeverityPresentation (severity : Option String) : SeverityPresentation :=
  { backgroundColor :=
      if severity = some "high" then "#FEF2F2"
      else if severity = some "medium" then "#FFFBEB"
      else "#EBF4FF"
    icon :=
      if severity = some "high" then "alert-circle"
      else if severity = some "medium" then "warning"
      else "information-circle"
    textColor :=
      if severity = some "high" then "#EF4444"
      else if severity = some "medium" then "#F59E0B"
      else "#3B82F6" }

/-- Subscription severity tiers accepted by the device service. -/
inductive Severity where
  | low
  | medium
  | high
  deriving DecidableEq

/-- The `DeviceRegistration` object cached under the
`deviceRegistration` storage key. -/
structure DeviceRegistration where
  id : String
  deviceSecret : String
  subscriptionSeverity : Severity
  deriving DecidableEq

/-- The three `AsyncStorage` keys the device code reads and writes:
`deviceId`, `deviceSecret`, `deviceRegistration`. -/
structure Storage where
  deviceId : Option String
  deviceSecret : Option String
  deviceRegistration : Option DeviceRegistration
  deriving DecidableEq

/-- Embeds `DeviceService.getDeviceCredentials` (part_004 lines 40-54): reads the
`deviceId` and `deviceSecret` keys and returns `null` unless both are
present. -/
def getDeviceCredentials (st : Storage) : Option (String × String) :=
  match st.deviceId, st.deviceSecret with
  | some i, some s => some (i, s)
  | _, _ => none

/-- Observable outcome of one `DeviceService.updateSubscriptionSeverity`
run: the boolean the method resolves with, the error message it logged
via `console.error` (if any), how many network requests it issued, and
the final state of local storage. -/
structure UpdateOutcome where
  success : Bool
  loggedError : Option String
  networkCalls : ℕ
  store : Storage
  deriving DecidableEq

/-- Embeds `DeviceService.updateSubscriptionSeverity` (part_004 lines
157-192): throws the error Device not registered (caught locally,
logged, resolving `false`) when no credentials are stored, before any
network request; otherwise issues the PATCH (outcome supplied by the
`net` oracle) and on success rewrites the severity of the cached
registration. -/
def updateSubscriptionSeverity (st : Storage) (newSeverity : Severity)
    (net : Except String Unit) : UpdateOutcome :=
  match getDeviceCredentials st with
  | none =>
    { success := false, loggedError := some "Device not registered"
      networkCalls := 0, store := st }
  | some _ =>
    match net with
    | .error e =>
      { success := false, loggedError := some e, networkCalls := 1, store := st }
    | .ok _ =>
      let st' :=
        match st.deviceRegistration with
        | some reg =>
          { st with
            deviceRegistration := some ({ reg with subscriptionSeverity := newSeverity }) }
        | none => st
      { success := true, loggedError := none, networkCalls := 1, store := st' }

/-- Embeds `DeviceService.getDeviceFilteredEscalations` (part_004 lines 104-127):
returns `[]` without a network request when no credentials are stored;
otherwise issues the GET and returns `response.data || []` on success or
rethrows the transport error.  Escalation payloads are embedded by their
ids; the success value of the network oracle is optional to model a
null `response.data`. -/
def getDeviceFilteredEscalations (st : Storage)
    (net : Except String (Option (List String))) :
    Except String (List String) × ℕ :=
  match getDeviceCredentials st with
  | none => (.ok [], 0)
  | some _ =>
    match net with
    | .error e => (.error e, 1)
    | .ok data => (.ok (data.getD []), 1)

/-- The reply of the server to a successful `POST /device-register`. -/
structure RegResponse where
  id : String
  deviceSecret : String
  subscriptionSeverity : Severity
  deriving DecidableEq

/-- Observable outcome of one `registerDevice` run: the alert title the
user saw (if any), how many registration requests were issued, and the
final state of local storage. -/
structure RegisterOutcome where
  alert : Option String
  networkCalls : ℕ
  store : Storage
  deriving DecidableEq

/-- Embeds `registerDevice` (FeedbackDetailScreen lines 645-708): bails out
before the network when no user is logged in or notification permission
is denied; otherwise issues the registration POST (outcome supplied by
the `net` oracle).  On success it stores `deviceRegistration`, `deviceId`
and `deviceSecret`; on failure it alerts Registration Failed and
leaves storage untouched. -/
def registerDevice (userLoggedIn : Bool) (permissionGranted : Bool)
    (deviceId : String) (st : Storage) (net : Except String RegResponse) :
    RegisterOutcome :=
  if !userLoggedIn then
    { alert := some "Error", networkCalls := 0, store := st }
  else if !permissionGranted then
    { alert := some "Permission Required", networkCalls := 0, store := st }
  else
    match net with
    | .error _ =>
      { alert := some "Registration Failed", networkCalls := 1, store := st }
    | .ok resp =>
      { alert := some "Device Registered"
        networkCalls := 1
        store :=
          { deviceRegistration :=
              some ({ id := resp.id, deviceSecret := resp.deviceSecret
                      subscriptionSeverity := resp.subscriptionSeverity })
            deviceId := some deviceId
            deviceSecret := some resp.deviceSecret } }

/-! ### Helper lemmas and example records -/

/-- The `ratings` fallback computes the rounded mean of the positive
values whenever there is at least one. -/
theorem getAverageRatingFromRatings_eq_mean (r : FeedbackRecord)
    (hne : positiveRatingValues r ≠ []) :
    getAverageRatingFromRatings r =
      roundTo1 ((positiveRatingValues r).sum / (positiveRatingValues r).length) := by
  rcases hs : r.ratings with _ | entries
  · simp [positiveRatingValues, hs] at hne
  · have hne' : ratingValuesOf entries ≠ [] := by
      simpa [positiveRatingValues, hs] using hne
    simp only [getAverageRatingFromRatings, positiveRatingValues, hs]
    rw [if_pos (List.length_pos.mpr hne')]

/-- The `ratings` fallback returns 0 when there is no positive value. -/
theorem getAverageRatingFromRatings_eq_zero (r : FeedbackRecord)
    (h0 : positiveRatingValues r = []) :
    getAverageRatingFromRatings r = 0 := by
  rcases hs : r.ratings with _ | entries
  · simp [getAverageRatingFromRatings, hs]
  · have h0' : ratingValuesOf entries = [] := by
      simpa [positiveRatingValues, hs] using h0
    simp [getAverageRatingFromRatings, hs, h0']

/-- When the primary rating is absent or non-positive, `getAverageRating`
is the `ratings` fallback. -/
theorem getAverageRating_eq_fallback (r : FeedbackRecord)
    (hp : ∀ p, r.primaryRating = some p → p ≤ 0) :
    getAverageRating r = getAverageRatingFromRatings r := by
  rcases hq : r.primaryRating with _ | p
  · simp [getAverageRating, hq]
  · have : ¬ 0 < p := not_lt.mpr (hp p hq)
    simp [getAverageRating, hq, this]

/-- Example record: `ratings = {a: 2, b: 4}`, no primary rating. -/
def recordAB : FeedbackRecord :=
  { primaryRating := none, primaryComment := none
    ratings := some [("a", .num 2), ("b", .num 4)], comments := none }

/-- Example record: `primaryRating = 4.5`, `ratings = {a: 1}`. -/
def recordPrimary : FeedbackRecord :=
  { primaryRating := some 4.5, primaryComment := none
    ratings := some [("a", .num 1)], comments := none }

/-- Example record with no data at all. -/
def recordEmpty : FeedbackRecord :=
  { primaryRating := none, primaryComment := none
    ratings := none, comments := none }

/-- Example record with seven positive-valued ratings `a..g = 1..7`. -/
def recordSeven : FeedbackRecord :=
  { primaryRating := none, primaryComment := none
    ratings := some [("a", .num 1), ("b", .num 2), ("c", .num 3), ("d", .num 4),
                     ("e", .num 5), ("f", .num 6), ("g", .num 7)]
    comments := none }

/-! ### Claim theorems -/

/-- C1: for every feedback record whose primary rating is absent or not
greater than 0 and whose `ratings` object contains at least one numeric
value greater than 0, `getAverageRating` returns the arithmetic mean of
exactly those positive numeric values, rounded to one decimal place. -/
theorem getAverageRating_mean_of_positives (r : FeedbackRecord)
    (hp : ∀ p, r.primaryRating = some p → p ≤ 0)
    (hne : positiveRatingValues r ≠ []) :
    getAverageRating r =
      roundTo1 ((positiveRatingValues r).sum / (positiveRatingValues r).length) :=
  (getAverageRating_eq_fallback r hp).trans (getAverageRatingFromRatings_eq_mean r hne)

/-- C1 witness: on `ratings = {a: 2, b: 4}` with no primary rating, the
mean of the positive values is returned and equals 3.0. -/
theorem getAverageRating_mean_of_positives_witness :
    positiveRatingValues recordAB ≠ [] ∧ getAverageRating recordAB = 3 := by
  refine ⟨by decide, ?_⟩
  have h := getAverageRating_mean_of_positives recordAB
    (by intro p hp; simp [recordAB] at hp) (by decide)
  rw [h]; with_unfolding_all decide

/-- C2: for every feedback record whose primary rating is present and
greater than 0, `getAverageRating` returns the primary rating rounded to
one decimal, whatever the `ratings` and `comments` objects hold. -/
theorem getAverageRating_primary_wins (p : ℚ) (hpos : 0 < p)
    (pc : Option String) (rs cs : Option (List (String × JVal))) :
    getAverageRating
      { primaryRating := some p, primaryComment := pc, ratings := rs, comments := cs } =
      roundTo1 p := by
  simp [getAverageRating, hpos]

/-- C2 witness: with `primaryRating = 4.5` and `ratings = {a: 1}` the
result is 4.5. -/
theorem getAverageRating_primary_wins_witness :
    (0 : ℚ) < 4.5 ∧ getAverageRating recordPrimary = 4.5 := by
  refine ⟨by norm_num, ?_⟩
  have h := getAverageRating_primary_wins 4.5 (by norm_num)
    none (some [("a", .num 1)]) none
  rw [show recordPrimary =
      { primaryRating := some 4.5, primaryComment := none
        ratings := some [("a", JVal.num 1)], comments := none } from rfl, h]
  with_unfolding_all decide

/-- C3: for every feedback record whose primary rating is absent or not
greater than 0 and whose `ratings` object has no numeric value greater
than 0, `getAverageRating` returns 0.0 (the function is total and never
raises). -/
theorem getAverageRating_default_zero (r : FeedbackRecord)
    (hp : ∀ p, r.primaryRating = some p → p ≤ 0)
    (h0 : positiveRatingValues r = []) :
    getAverageRating r = 0 :=
  (getAverageRating_eq_fallback r hp).trans (getAverageRatingFromRatings_eq_zero r h0)

/-- C3 witness: the empty record aggregates to 0.0. -/
theorem getAverageRating_default_zero_witness :
    positiveRatingValues recordEmpty = [] ∧ getAverageRating recordEmpty = 0 := by
  refine ⟨by decide, ?_⟩
  exact getAverageRating_default_zero recordEmpty
    (by intro p hp; simp [recordEmpty] at hp) (by decide)

/-- C4: `getRatingColor` partitions ratings with lower-inclusive
boundaries: at least 4 is the good tier `#10B981`, at least 3 but below 4
is the warning tier `#F59E0B`, and below 3 is the critical tier
`#EF4444`. -/
theorem getRatingColor_partition (rating : ℚ) :
    (4 ≤ rating → getRatingColor rating = "#10B981") ∧
    (3 ≤ rating → rating < 4 → getRatingColor rating = "#F59E0B") ∧
    (rating < 3 → getRatingColor rating = "#EF4444") := by
  refine ⟨fun h4 => ?_, fun h3 h4 => ?_, fun h3 => ?_⟩
  · rw [getRatingColor, if_pos h4]
  · rw [getRatingColor, if_neg (not_le.mpr h4), if_pos h3]
  · have h4 : ¬ rating ≥ 4 := not_le.mpr (h3.trans (by norm_num))
    rw [getRatingColor, if_neg h4, if_neg (not_le.mpr h3)]

/-- C4 witness: 4.0 is good, 3.0 is warning, 2.999 is critical. -/
theorem getRatingColor_partition_witness :
    getRatingColor 4 = "#10B981" ∧ getRatingColor 3 = "#F59E0B" ∧
      getRatingColor 2.999 = "#EF4444" :=
  ⟨(getRatingColor_partition 4).1 (by norm_num),
   (getRatingColor_partition 3).2.1 (by norm_num) (by norm_num),
   (getRatingColor_partition 2.999).2.2 (by norm_num)⟩

/-- C5: `getAvailableRatings` returns the positive-valued entries of the
`ratings` object, in insertion order, truncated to at most 5, each label
being the key with its first character upper-cased and each value the
original unrounded number; on seven positive ratings exactly the first
five are returned. -/
theorem getAvailableRatings_spec :
    (∀ r : FeedbackRecord,
      (getAvailableRatings r).length ≤ 5 ∧
      getAvailableRatings r =
        ((positiveRatingEntries (r.ratings.getD [])).take 5).map
          (fun kv => { key := kv.1, label := capitalizeFirst kv.1, value := kv.2 })) ∧
    getAvailableRatings recordSeven =
      [{ key := "a", label := "A", value := 1 }, { key := "b", label := "B", value := 2 },
       { key := "c", label := "C", value := 3 }, { key := "d", label := "D", value := 4 },
       { key := "e", label := "E", value := 5 }] := by
  constructor
  · intro r
    rcases hs : r.ratings with _ | entries
    · simp [getAvailableRatings, hs, positiveRatingEntries]
    · refine ⟨?_, by simp [getAvailableRatings, hs]⟩
      calc (getAvailableRatings r).length
          = ((positiveRatingEntries entries).take 5).length := by
            simp [getAvailableRatings, hs]
        _ ≤ 5 := by simp [List.length_take]
  · decide

/-- C6: `getAllComments` returns the primary comment unchanged whenever
it is non-empty after trimming; otherwise the non-blank string values of
the `comments` object joined with `" | "` in iteration order; otherwise
`null`. -/
theorem getAllComments_spec (r : FeedbackRecord) :
    (jsTrim (r.primaryComment.getD "") ≠ "" → getAllComments r = r.primaryComment) ∧
    (jsTrim (r.primaryComment.getD "") = "" → trimmedComments r ≠ [] →
      getAllComments r = some (String.intercalate " | " (trimmedComments r))) ∧
    (jsTrim (r.primaryComment.getD "") = "" → trimmedComments r = [] →
      getAllComments r = none) := by
  have hfb : trimmedComments r ≠ [] →
      getAllCommentsFromComments r =
        some (String.intercalate " | " (trimmedComments r)) := by
    intro hne
    rcases hc : r.comments with _ | entries
    · simp [trimmedComments, hc] at hne
    · have hne' : commentValuesOf entries ≠ [] := by
        simpa [trimmedComments, hc] using hne
      simp only [getAllCommentsFromComments, trimmedComments, hc]
      rw [if_pos (List.length_pos.mpr hne')]
  have hfb0 : trimmedComments r = [] → getAllCommentsFromComments r = none := by
    intro h0
    rcases hc : r.comments with _ | entries
    · simp [getAllCommentsFromComments, hc]
    · have h0' : commentValuesOf entries = [] := by
        simpa [trimmedComments, hc] using h0
      simp [getAllCommentsFromComments, hc, h0']
  rcases hp : r.primaryComment with _ | c
  · refine ⟨fun h => ?_, fun _ hne => ?_, fun _ h0 => ?_⟩
    · exact absurd (by decide) h
    · simpa [getAllComments, hp] using hfb hne
    · simpa [getAllComments, hp] using hfb0 h0
  · by_cases ht : jsTrim c = ""
    · refine ⟨fun h => ?_, fun _ hne => ?_, fun _ h0 => ?_⟩
      · exact absurd ht (by simpa using h)
      · simpa [getAllComments, hp, ht] using hfb hne
      · simpa [getAllComments, hp, ht] using hfb0 h0
    · refine ⟨fun _ => by simp [getAllComments, hp, ht], fun h _ => ?_, fun h _ => ?_⟩
      · exact absurd (by simpa [hp] using h) ht
      · exact absurd (by simpa [hp] using h) ht

/-- Example record whose primary comment is non-blank. -/
def recordPrimaryComment : FeedbackRecord :=
  { primaryRating := none, primaryComment := some "Great food"
    ratings := none, comments := some [("general", .str "ignored")] }

/-- Example record with a blank primary comment and two non-blank
comment values around a blank one. -/
def recordJoinedComments : FeedbackRecord :=
  { primaryRating := none, primaryComment := some "   "
    ratings := none
    comments := some [("service", .str "Slow"), ("blank", .str "  "),
                      ("quality", .str "Cold"), ("n", .num 3)] }

/-- C6 witness: the three branches at concrete records — a non-blank
primary comment is returned unchanged, non-blank comment values are
joined with `" | "`, and the empty record yields `null`. -/
theorem getAllComments_spec_witness :
    getAllComments recordPrimaryComment = some "Great food" ∧
    getAllComments recordJoinedComments = some "Slow | Cold" ∧
    getAllComments recordEmpty = none := by
  refine ⟨?_, ?_, ?_⟩
  · exact (getAllComments_spec recordPrimaryComment).1 (by decide)
  · have h := (getAllComments_spec recordJoinedComments).2.1 (by decide) (by decide)
    rw [h]; decide
  · exact (getAllComments_spec recordEmpty).2.2 (by decide) (by decide)

/-- C7: the severity presentation is total: `"high"` and `"medium"` get
their dedicated triples and every other value — `"low"`, `null`, or any
unknown string — resolves to the defined neutral/info triple (which is
exactly what the source renders for `"low"`). -/
theorem classifySeverityPresentation_total (severity : Option String) :
    (severity = some "high" →
      classifySeverityPresentation severity =
        { backgroundColor := "#FEF2F2", icon := "alert-circle", textColor := "#EF4444" }) ∧
    (severity = some "medium" →
      classifySeverityPresentation severity =
        { backgroundColor := "#FFFBEB", icon := "warning", textColor := "#F59E0B" }) ∧
    (severity ≠ some "high" → severity ≠ some "medium" →
      classifySeverityPresentation severity =
        { backgroundColor := "#EBF4FF", icon := "information-circle",
          textColor := "#3B82F6" }) := by
  refine ⟨fun hh => ?_, fun hm => ?_, fun hh hm => ?_⟩
  · simp [classifySeverityPresentation, hh]
  · simp [classifySeverityPresentation, hm]
  · simp [classifySeverityPresentation, hh, hm]

/-- C7 witness: `"high"`, `"medium"`, `"low"`, `"unknown-value"` and an
absent severity each resolve to a defined presentation triple. -/
theorem classifySeverityPresentation_total_witness :
    classifySeverityPresentation (some "high") =
      { backgroundColor := "#FEF2F2", icon := "alert-circle", textColor := "#EF4444" } ∧
    classifySeverityPresentation (some "medium") =
      { backgroundColor := "#FFFBEB", icon := "warning", textColor := "#F59E0B" } ∧
    classifySeverityPresentation (some "low") =
      { backgroundColor := "#EBF4FF", icon := "information-circle", textColor := "#3B82F6" } ∧
    classifySeverityPresentation (some "unknown-value") =
      { backgroundColor := "#EBF4FF", icon := "information-circle", textColor := "#3B82F6" } ∧
    classifySeverityPresentation none =
      { backgroundColor := "#EBF4FF", icon := "information-circle", textColor := "#3B82F6" } :=
  ⟨(classifySeverityPresentation_total (some "high")).1 rfl,
   (classifySeverityPresentation_total (some "medium")).2.1 rfl,
   (classifySeverityPresentation_total (some "low")).2.2 (by decide) (by decide),
   (classifySeverityPresentation_total (some "unknown-value")).2.2 (by decide) (by decide),
   (classifySeverityPresentation_total none).2.2 (by decide) (by decide)⟩

/-- Missing credentials (either key absent) mean `getDeviceCredentials`
resolves `null`. -/
theorem getDeviceCredentials_eq_none (st : Storage)
    (h : st.deviceId = none ∨ st.deviceSecret = none) :
    getDeviceCredentials st = none := by
  rcases h with h | h <;>
    · unfold getDeviceCredentials
      rcases hi : st.deviceId with _ | i <;> rcases hs : st.deviceSecret with _ | s <;>
        simp_all

/-- C8: with the device identifier or device secret missing from storage,
`updateSubscriptionSeverity` resolves `false` after logging the
`Device not registered` error, issues zero network calls, and leaves
storage untouched — the local-precondition check precedes any network
request. -/
theorem updateSubscriptionSeverity_unregistered (st : Storage) (sev : Severity)
    (net : Except String Unit)
    (h : st.deviceId = none ∨ st.deviceSecret = none) :
    updateSubscriptionSeverity st sev net =
      { success := false, loggedError := some "Device not registered"
        networkCalls := 0, store := st } := by
  unfold updateSubscriptionSeverity
  rw [getDeviceCredentials_eq_none st h]

/-- C8 witness: on empty storage the update reports the unregistered
failure with zero network calls, whatever the network would have
answered. -/
theorem updateSubscriptionSeverity_unregistered_witness :
    ((Storage.mk none none none).deviceId = none ∨
      (Storage.mk none none none).deviceSecret = none) ∧
    updateSubscriptionSeverity (Storage.mk none none none) .high (.ok ()) =
      { success := false, loggedError := some "Device not registered"
        networkCalls := 0, store := Storage.mk none none none } :=
  ⟨Or.inl rfl,
   updateSubscriptionSeverity_unregistered (Storage.mk none none none) .high
     (.ok ()) (Or.inl rfl)⟩

/-- C9: when `registerDevice` reaches the registration request and the
request fails, the failure surfaces as the recoverable
`Registration Failed` alert and local storage is left exactly as it was;
when the request succeeds, the device identifier and the device secret
are both stored. -/
theorem registerDevice_no_partial_state (deviceId : String) (st : Storage) :
    (∀ e : String,
      registerDevice true true deviceId st (.error e) =
        { alert := some "Registration Failed", networkCalls := 1, store := st }) ∧
    (∀ resp : RegResponse,
      (registerDevice true true deviceId st (.ok resp)).store.deviceId =
          some deviceId ∧
      (registerDevice true true deviceId st (.ok resp)).store.deviceSecret =
          some resp.deviceSecret) :=
  ⟨fun _ => rfl, fun _ => ⟨rfl, rfl⟩⟩

/-- C10: with the device identifier or device secret missing,
`getDeviceFilteredEscalations` resolves to the empty list with zero
network calls and no error; with credentials present, a failing request
propagates its error to the caller. -/
theorem getDeviceFilteredEscalations_spec (st : Storage)
    (net : Except String (Option (List String))) :
    ((st.deviceId = none ∨ st.deviceSecret = none) →
      getDeviceFilteredEscalations st net = (.ok [], 0)) ∧
    (∀ e, getDeviceCredentials st ≠ none → net = .error e →
      getDeviceFilteredEscalations st net = (.error e, 1)) := by
  constructor
  · intro h
    unfold getDeviceFilteredEscalations
    rw [getDeviceCredentials_eq_none st h]
  · intro e hc hnet
    unfold getDeviceFilteredEscalations
    rcases hcv : getDeviceCredentials st with _ | cred
    · exact absurd hcv hc
    · rw [hnet]

/-- C10 witness: empty storage yields the empty list with zero network
calls even when the network would error; with credentials stored, a
transport error is propagated. -/
theorem getDeviceFilteredEscalations_spec_witness :
    getDeviceFilteredEscalations (Storage.mk none none none) (.error "down") =
      (.ok [], 0) ∧
    getDeviceFilteredEscalations (Storage.mk (some "d1") (some "s1") none)
      (.error "down") = (.error "down", 1) :=
  ⟨(getDeviceFilteredEscalations_spec (Storage.mk none none none)
      (.error "down")).1 (Or.inl rfl),
   (getDeviceFilteredEscalations_spec (Storage.mk (some "d1") (some "s1") none)
      (.error "down")).2 "down" (by decide) rfl⟩

end SuperfanClub
